import Mathlib

/-!
Verification of the autoreeler pipeline (coupang video automation).

Shallow embedding of the core pipeline code:
  * `main.py` — orchestrator (`process_coupang_link`), media compositor
    (`_compose_final_video`), multi-target publisher (`_upload_to_social_media`);
  * `modules/video_generator.py` — long-running-job poller
    (`_wait_for_video_completion`);
  * `modules/instagram_uploader.py` — poller (`_wait_for_upload_completion`);
  * `modules/gemini_handler.py` — script-response parsing
    (`_parse_script_response`, `_fallback_parse`);
  * `modules/coupang_scraper.py` — URL validation and extraction
    (`_is_valid_coupang_url`, `extract_product_info`).

External collaborators (HTTP calls, moviepy, file system) are modelled as
oracle functions passed in explicitly; Python exceptions are modelled with
`Except String`; Python `None` with `Option`; float durations with `ℚ`.
-/

namespace Autoreeler

/-- Python string truthiness: `None` and the empty string are falsy. -/
def pyTruthy : Option String → Bool
  | none => false
  | some s => decide (s ≠ "")

/-- A moviepy clip, abstracted to its observable duration and the duration of
the audio track bound onto it (if any).  `VideoFileClip` / `AudioFileClip`
handles are modelled by values of this type. -/
structure Clip where
  duration : ℚ
  audioTrackDur : Option ℚ
deriving Repr, DecidableEq

/-- moviepy `clip.subclip(a, b)`: the clip restricted to `[a, b]`, whose
duration is `b - a`. -/
def Clip.subclip (c : Clip) (a b : ℚ) : Clip :=
  { c with duration := b - a }

/-- moviepy `video.set_audio(audio)`: binds the audio track onto the video,
replacing any existing track; the video duration is unchanged. -/
def Clip.setAudio (v a : Clip) : Clip :=
  { v with audioTrackDur := some a.duration }

/-- `main.py` lines 146-152 (inside `_compose_final_video`): the duration
reconciliation between the loaded audio and video clips.

```python
if audio.duration != video.duration:
    if audio.duration > video.duration:
        audio = audio.subclip(0, video.duration)
    else:
        video = video.subclip(0, audio.duration)
```
Returns the (possibly trimmed) `(audio, video)` pair. -/
def reconcileAudioVideo (audio video : Clip) : Clip × Clip :=
  if audio.duration ≠ video.duration then
    if audio.duration > video.duration then
      (audio.subclip 0 video.duration, video)
    else
      (audio, video.subclip 0 audio.duration)
  else
    (audio, video)

/-- `main.py` imports only `logging`, `sys`, `time`, the project modules and
`Config`.  The module namespace of `main.py` has no binding for the name
`os`, so evaluating the expression `os.path.exists(...)` inside
`_compose_final_video` raises `NameError` at runtime. -/
def mainPyImportsOs : Bool := false

/-- Oracle for the external collaborators used by `_compose_final_video`:
moviepy clip loading, subtitle overlay, file existence, and the final
`write_videofile` call.  Each `Except` models a call that may raise. -/
structure ComposeEnv where
  loadVideo : String → Except String Clip
  loadAudio : String → Except String Clip
  subtitleFileExists : String → Bool
  addSubtitlesToVideo : Clip → String → Except String Clip
  writeVideofile : String → Clip → Except String Unit
  now : Nat

/-- Observable outcome of `_compose_final_video`: the returned path (Python
`None` on failure), the duration of the written file when one was written,
and whether the loaded video / audio handles were closed. -/
structure ComposeOut where
  result : Option String
  finalDuration : Option ℚ
  videoClosed : Bool
  audioClosed : Bool
deriving Repr, DecidableEq

/-- The body of the `try:` block of `_compose_final_video` (`main.py` lines
134-175), as an `Except` computation: `.error` is a raised exception.
Returns the output path, the written clip, and whether `audio` is bound in
`locals()`. -/
def composeBody (env : ComposeEnv) (videoPath audioPath : String)
    (subtitlePath : Option String) : Except String (String × Clip × Bool) := do
  let video ← env.loadVideo videoPath
  let (video, audioInLocals) ←
    if audioPath ≠ "" then do
      let au ← env.loadAudio audioPath
      pure ((reconcileAudioVideo au video).2.setAudio (reconcileAudioVideo au video).1,
        true)
    else
      pure (video, false)
  let video ←
    match subtitlePath with
    | some p =>
      if p ≠ "" then
        if mainPyImportsOs then
          if env.subtitleFileExists p then
            env.addSubtitlesToVideo video p
          else
            pure video
        else
          -- evaluating `os.path.exists` with no `os` in scope
          Except.error "NameError: name os is not defined"
      else
        pure video
    | none => pure video
  let outputPath := "output/videos/final_" ++ toString env.now ++ ".mp4"
  let _ ← env.writeVideofile outputPath video
  pure (outputPath, video, audioInLocals)

/-- `_compose_final_video` (`main.py` lines 131-179): runs the body; on any
raised exception the `except` clause logs and returns `None` — the close
calls at lines 171-173 sit inside the `try:` body after the write, so they
run only on the success path. -/
def composeFinalVideo (env : ComposeEnv) (videoPath audioPath : String)
    (subtitlePath : Option String := none) : ComposeOut :=
  match composeBody env videoPath audioPath subtitlePath with
  | .ok (path, clip, audioInLocals) =>
    { result := some path
      finalDuration := some clip.duration
      videoClosed := true
      audioClosed := audioInLocals }
  | .error _ =>
    { result := none, finalDuration := none
      videoClosed := false, audioClosed := false }

/-- A compose environment in which every external call succeeds: the video
loads with duration `dv`, the audio with duration `da`, no subtitle file
exists, and the write succeeds. -/
def happyEnv (da dv : ℚ) : ComposeEnv where
  loadVideo _ := .ok ⟨dv, none⟩
  loadAudio _ := .ok ⟨da, none⟩
  subtitleFileExists _ := false
  addSubtitlesToVideo c _ := .ok c
  writeVideofile _ _ := .ok ()
  now := 0

/-- The product record built by `extract_product_info`
(`modules/coupang_scraper.py` lines 41-50). -/
structure ProductInfo where
  title : String
  price : String
  original_price : String
  rating : String
  review_count : String
  description : String
  images : List String
  url : String
deriving Repr, DecidableEq

/-- The script record consumed by the orchestrator: keys of the dictionary
produced by `generate_video_script` that `main.py` reads
(`script`, `description`, `title`, `hashtags`). -/
structure ScriptData where
  title : String
  description : String
  script : String
  hashtags : List String
deriving Repr, DecidableEq

/-- One entry of the `results` dictionary of `_upload_to_social_media`
(`main.py` lines 194-197 and 207-210): `success` is `<id> is not None`, and
the platform id (`media_id` for Instagram, `video_id` for YouTube). -/
structure UploadOutcome where
  success : Bool
  platformId : Option String
deriving Repr, DecidableEq

/-- The `results` dictionary returned by `_upload_to_social_media`: possible
keys are `instagram`, `youtube` and `error` (`main.py` lines 184-216). -/
structure UploadResults where
  instagram : Option UploadOutcome
  youtube : Option UploadOutcome
  error : Option String
deriving Repr, DecidableEq

/-- The result dictionary of `process_coupang_link` (`main.py` lines 111-118
on success, lines 125-129 on failure), with every key that either shape can
carry. -/
structure PipelineResult where
  success : Bool
  product_info : Option ProductInfo
  script_data : Option ScriptData
  video_path : Option String
  upload_results : Option UploadResults
  error : Option String
  processing_time : ℚ
deriving Repr, DecidableEq

/-- The success-shape dictionary literal of `main.py` lines 111-118. -/
def successResult (pi : ProductInfo) (sd : ScriptData) (path : String)
    (ur : UploadResults) (t : ℚ) : PipelineResult :=
  { success := true, product_info := some pi, script_data := some sd
    video_path := some path, upload_results := some ur
    error := none, processing_time := t }

/-- The failure-shape dictionary literal of `main.py` lines 125-129. -/
def failureResult (msg : String) (t : ℚ) : PipelineResult :=
  { success := false, product_info := none, script_data := none
    video_path := none, upload_results := none
    error := some msg, processing_time := t }

/-- Names of the external collaborators `process_coupang_link` and
`_upload_to_social_media` invoke, in invocation order, for call accounting. -/
inductive Collab where
  | extract | script | speech | audioDur | subtitles | video
  | instagram | youtube
deriving Repr, DecidableEq

/-- Oracle for every external collaborator of the pipeline run.  Each field
models one collaborator method; `.error` models a raised exception and
`.ok none` a `None` return. -/
structure PipelineEnv where
  extractProductInfo : String → Except String (Option ProductInfo)
  generateVideoScript : ProductInfo → Except String (Option ScriptData)
  generateSpeech : String → String → Except String (Option String)
  getAudioDuration : String → Except String ℚ
  generateSubtitlesFromScript : String → ℚ → Except String (Option String)
  generateVideoFromScript : ScriptData → List String → Except String (Option String)
  compose : ComposeEnv
  uploadInstagramVideo : String → String → List String → Except String (Option String)
  uploadYoutubeVideo : String → String → String → List String → Except String (Option String)
  now : ℚ

/-- Python `value or default` for the string carried in an `Option`. -/
def pyStr : Option String → String
  | none => ""
  | some s => s

/-- `_upload_to_social_media` (`main.py` lines 181-216): one `try:` block
covering both targets; a raised exception anywhere inside it jumps to the
`except` clause, which records `results['error']` and returns whatever
`results` holds at that point.  Also returns the list of upload
collaborators actually invoked. -/
def uploadToSocialMedia (env : PipelineEnv) (videoPath : String)
    (sd : ScriptData) : UploadResults × List Collab :=
  match env.uploadInstagramVideo videoPath sd.description sd.hashtags with
  | .error e =>
    ({ instagram := none, youtube := none, error := some e }, [.instagram])
  | .ok instaId =>
    let instaOutcome : UploadOutcome := { success := instaId.isSome, platformId := instaId }
    match env.uploadYoutubeVideo videoPath sd.title sd.description sd.hashtags with
    | .error e =>
      ({ instagram := some instaOutcome, youtube := none, error := some e },
       [.instagram, .youtube])
    | .ok ytId =>
      ({ instagram := some instaOutcome
         youtube := some { success := ytId.isSome, platformId := ytId }
         error := none },
       [.instagram, .youtube])

/-- `process_coupang_link` (`main.py` lines 49-129): the seven stages in
order, inside one `try:` whose `except` clause converts any raised exception
(including the explicit `raise Exception(...)` checks after stages 1, 2, 3,
5 and 6) into the failure-shape result.  The subtitle stage's return value
is not checked (`main.py` lines 79-83 have no null check).  Also returns the
list of collaborators invoked, in order. -/
def processCoupangLink (env : PipelineEnv) (url : String) :
    PipelineResult × List Collab :=
  match env.extractProductInfo url with
  | .error e => (failureResult e env.now, [.extract])
  | .ok none => (failureResult "상품 정보 추출 실패" env.now, [.extract])
  | .ok (some productInfo) =>
    match env.generateVideoScript productInfo with
    | .error e => (failureResult e env.now, [.extract, .script])
    | .ok none => (failureResult "스크립트 생성 실패" env.now, [.extract, .script])
    | .ok (some scriptData) =>
      match env.generateSpeech scriptData.script "alloy" with
      | .error e => (failureResult e env.now, [.extract, .script, .speech])
      | .ok audioOpt =>
        if pyTruthy audioOpt then
          match env.getAudioDuration (pyStr audioOpt) with
          | .error e =>
            (failureResult e env.now, [.extract, .script, .speech, .audioDur])
          | .ok audioDuration =>
            match env.generateSubtitlesFromScript scriptData.script audioDuration with
            | .error e =>
              (failureResult e env.now,
               [.extract, .script, .speech, .audioDur, .subtitles])
            | .ok subtitleOpt =>
              match env.generateVideoFromScript scriptData productInfo.images with
              | .error e =>
                (failureResult e env.now,
                 [.extract, .script, .speech, .audioDur, .subtitles, .video])
              | .ok videoOpt =>
                if pyTruthy videoOpt then
                  if pyTruthy (composeFinalVideo env.compose (pyStr videoOpt)
                      (pyStr audioOpt) subtitleOpt).result then
                    (successResult productInfo scriptData
                       (pyStr (composeFinalVideo env.compose (pyStr videoOpt)
                          (pyStr audioOpt) subtitleOpt).result)
                       (uploadToSocialMedia env
                          (pyStr (composeFinalVideo env.compose (pyStr videoOpt)
                             (pyStr audioOpt) subtitleOpt).result) scriptData).1
                       env.now,
                     [.extract, .script, .speech, .audioDur, .subtitles, .video]
                       ++ (uploadToSocialMedia env
                             (pyStr (composeFinalVideo env.compose (pyStr videoOpt)
                                (pyStr audioOpt) subtitleOpt).result) scriptData).2)
                  else
                    (failureResult "영상 합성 실패" env.now,
                     [.extract, .script, .speech, .audioDur, .subtitles, .video])
                else
                  (failureResult "영상 생성 실패" env.now,
                   [.extract, .script, .speech, .audioDur, .subtitles, .video])
        else
          (failureResult "음성 생성 실패" env.now, [.extract, .script, .speech])

/-- `needle` occurs as a contiguous substring of `hay`. -/
def strContains (needle hay : String) : Bool :=
  (List.range (hay.toList.length + 1)).any fun i =>
    needle.toList.isPrefixOf (hay.toList.drop i)

/-- Truthiness of an optional string holds exactly for a nonempty string. -/
theorem pyTruthy_iff (o : Option String) :
    pyTruthy o = true ↔ ∃ s, o = some s ∧ s ≠ "" := by
  cases o <;> simp [pyTruthy]

/-- Mock product record for concrete pipeline runs. -/
def mockProduct (u : String) : ProductInfo :=
  { title := "Widget", price := "10000", original_price := ""
    rating := "0", review_count := "0", description := "desc"
    images := ["img1"], url := u }

/-- Mock script record for concrete pipeline runs. -/
def mockScript : ScriptData :=
  { title := "title", description := "desc", script := "script text"
    hashtags := ["tag"] }

/-- A pipeline environment in which every collaborator succeeds: extraction
and script generation return records, speech returns a 28s audio file, the
subtitle generator returns `None` (non-fatal per `main.py` lines 79-83),
video generation returns a 32s clip, and both uploads return platform ids. -/
def allOkEnv : PipelineEnv where
  extractProductInfo u := .ok (some (mockProduct u))
  generateVideoScript _ := .ok (some mockScript)
  generateSpeech _ _ := .ok (some "output/audio/speech_0.mp3")
  getAudioDuration _ := .ok 28
  generateSubtitlesFromScript _ _ := .ok none
  generateVideoFromScript _ _ := .ok (some "output/videos/final_video_0.mp4")
  compose := happyEnv 28 32
  uploadInstagramVideo _ _ _ := .ok (some "ig17895")
  uploadYoutubeVideo _ _ _ _ := .ok (some "ytAbc123")
  now := 0

/-- `allOkEnv`, except that extraction returns `None`. -/
def envExtractNone : PipelineEnv :=
  { allOkEnv with extractProductInfo := fun _ => .ok none }

/-- C2 counterexample: the claim fails on the code in two ways.  First, the
subtitle stage (fourth of the "first five stages") returning `None` is
non-fatal: with every other collaborator succeeding and the subtitle
generator returning `None`, the run ends with `success=True`.  Second, the
extraction-failure message is the Korean `상품 정보 추출 실패`, which does
not contain the substring `extract`. -/
theorem C2_counterexample :
    (processCoupangLink allOkEnv "u").1.success = true ∧
    (processCoupangLink envExtractNone "u").1.error = some "상품 정보 추출 실패" ∧
    strContains "extract" "상품 정보 추출 실패" = false := by
  refine ⟨rfl, rfl, ?_⟩
  decide

/-- C2 (amended): for every run in which the extract, script, speech or
video stage returns null, the pipeline result has `success=false` with the
Korean stage-marker error message (for extraction, `상품 정보 추출 실패`,
which contains the stage marker `추출`), and no later stage's collaborator
is invoked — in particular extraction failure causes zero calls to the
script/speech/video/upload collaborators.  The subtitle stage is excluded:
its null return is non-fatal. -/
theorem C2_stage_failure_short_circuits (env : PipelineEnv) (url : String) :
    (env.extractProductInfo url = .ok none →
      processCoupangLink env url =
        (failureResult "상품 정보 추출 실패" env.now, [Collab.extract])) ∧
    ((failureResult "상품 정보 추출 실패" env.now).success = false ∧
      strContains "추출" "상품 정보 추출 실패" = true) ∧
    (∀ pi, env.extractProductInfo url = .ok (some pi) →
      env.generateVideoScript pi = .ok none →
      processCoupangLink env url =
        (failureResult "스크립트 생성 실패" env.now, [.extract, .script])) ∧
    (∀ pi sd, env.extractProductInfo url = .ok (some pi) →
      env.generateVideoScript pi = .ok (some sd) →
      env.generateSpeech sd.script "alloy" = .ok none →
      processCoupangLink env url =
        (failureResult "음성 생성 실패" env.now, [.extract, .script, .speech])) ∧
    (∀ pi sd d st, env.extractProductInfo url = .ok (some pi) →
      env.generateVideoScript pi = .ok (some sd) →
      env.generateSpeech sd.script "alloy" = .ok (some "a.mp3") →
      env.getAudioDuration "a.mp3" = .ok d →
      env.generateSubtitlesFromScript sd.script d = .ok st →
      env.generateVideoFromScript sd pi.images = .ok none →
      processCoupangLink env url =
        (failureResult "영상 생성 실패" env.now,
         [.extract, .script, .speech, .audioDur, .subtitles, .video])) := by
  refine ⟨?_, ⟨rfl, by decide⟩, ?_, ?_, ?_⟩
  · intro hE
    simp [processCoupangLink, hE]
  · intro pi hE hS
    simp [processCoupangLink, hE, hS]
  · intro pi sd hE hS hSp
    simp [processCoupangLink, hE, hS, hSp, pyTruthy]
  · intro pi sd d st hE hS hSp hD hSub hV
    simp [processCoupangLink, hE, hS, hSp, hD, hSub, hV, pyTruthy, pyStr]

/-- Witness for C2 (amended), extraction-failure branch at `envExtractNone`. -/
theorem C2_stage_failure_short_circuits_witness :
    processCoupangLink envExtractNone "u" =
      (failureResult "상품 정보 추출 실패" envExtractNone.now, [Collab.extract]) :=
  (C2_stage_failure_short_circuits envExtractNone "u").1 rfl

/-- Every pipeline run's result is one of the two dictionary shapes of
`main.py`: the failure literal of lines 125-129 or the success literal of
lines 111-118, always stamped with the run's timestamp. -/
theorem processCoupangLink_shapes (env : PipelineEnv) (url : String) :
    (∃ m, (processCoupangLink env url).1 = failureResult m env.now) ∨
    (∃ pi sd p ur, (processCoupangLink env url).1 = successResult pi sd p ur env.now) := by
  unfold processCoupangLink
  repeat' split
  all_goals first
    | exact Or.inl ⟨_, rfl⟩
    | exact Or.inr ⟨_, _, _, _, rfl⟩

/-- C6: the orchestrator's run returns normally for every input URL (the
embedding is a total function) and any raised collaborator error is caught
and converted to a `success=false` result carrying the error text — stated
for every point of the run that can raise: the extract, script, speech,
audio-duration, subtitle and video-generation collaborators (the compose
and upload stages catch their own exceptions internally and never raise
into the orchestrator); the result populates exactly one of the two
shapes: on success the product info, script data, video path, upload
outcomes and timestamp with no error field, and on failure an error
message and timestamp with all success-shape fields absent — never both. -/
theorem C6_result_exactly_one_shape (env : PipelineEnv) (url : String) :
    ((processCoupangLink env url).1.success = true →
      (processCoupangLink env url).1.error = none ∧
      (processCoupangLink env url).1.product_info.isSome ∧
      (processCoupangLink env url).1.script_data.isSome ∧
      (processCoupangLink env url).1.video_path.isSome ∧
      (processCoupangLink env url).1.upload_results.isSome ∧
      (processCoupangLink env url).1.processing_time = env.now) ∧
    ((processCoupangLink env url).1.success = false →
      (processCoupangLink env url).1.error.isSome ∧
      (processCoupangLink env url).1.product_info = none ∧
      (processCoupangLink env url).1.script_data = none ∧
      (processCoupangLink env url).1.video_path = none ∧
      (processCoupangLink env url).1.upload_results = none ∧
      (processCoupangLink env url).1.processing_time = env.now) ∧
    (∀ e, env.extractProductInfo url = .error e →
      (processCoupangLink env url).1 = failureResult e env.now) ∧
    (∀ pi e, env.extractProductInfo url = .ok (some pi) →
      env.generateVideoScript pi = .error e →
      (processCoupangLink env url).1 = failureResult e env.now) ∧
    (∀ pi sd e, env.extractProductInfo url = .ok (some pi) →
      env.generateVideoScript pi = .ok (some sd) →
      env.generateSpeech sd.script "alloy" = .error e →
      (processCoupangLink env url).1 = failureResult e env.now) ∧
    (∀ pi sd ap e, env.extractProductInfo url = .ok (some pi) →
      env.generateVideoScript pi = .ok (some sd) →
      env.generateSpeech sd.script "alloy" = .ok (some ap) → ap ≠ "" →
      env.getAudioDuration ap = .error e →
      (processCoupangLink env url).1 = failureResult e env.now) ∧
    (∀ pi sd ap d e, env.extractProductInfo url = .ok (some pi) →
      env.generateVideoScript pi = .ok (some sd) →
      env.generateSpeech sd.script "alloy" = .ok (some ap) → ap ≠ "" →
      env.getAudioDuration ap = .ok d →
      env.generateSubtitlesFromScript sd.script d = .error e →
      (processCoupangLink env url).1 = failureResult e env.now) ∧
    (∀ pi sd ap d st e, env.extractProductInfo url = .ok (some pi) →
      env.generateVideoScript pi = .ok (some sd) →
      env.generateSpeech sd.script "alloy" = .ok (some ap) → ap ≠ "" →
      env.getAudioDuration ap = .ok d →
      env.generateSubtitlesFromScript sd.script d = .ok st →
      env.generateVideoFromScript sd pi.images = .error e →
      (processCoupangLink env url).1 = failureResult e env.now) := by
  refine ⟨?_, ?_, ?_, ?_, ?_, ?_, ?_, ?_⟩
  · rcases processCoupangLink_shapes env url with ⟨m, hm⟩ | ⟨pi, sd, p, ur, hm⟩ <;>
      rw [hm] <;> simp [failureResult, successResult]
  · rcases processCoupangLink_shapes env url with ⟨m, hm⟩ | ⟨pi, sd, p, ur, hm⟩ <;>
      rw [hm] <;> simp [failureResult, successResult]
  · intro e hE
    simp [processCoupangLink, hE]
  · intro pi e hE hS
    simp [processCoupangLink, hE, hS]
  · intro pi sd e hE hS hSp
    simp [processCoupangLink, hE, hS, hSp]
  · intro pi sd ap e hE hS hSp hap hD
    simp [processCoupangLink, hE, hS, hSp, hD, pyTruthy, pyStr, hap]
  · intro pi sd ap d e hE hS hSp hap hD hSub
    simp [processCoupangLink, hE, hS, hSp, hD, hSub, pyTruthy, pyStr, hap]
  · intro pi sd ap d st e hE hS hSp hap hD hSub hV
    simp [processCoupangLink, hE, hS, hSp, hD, hSub, hV, pyTruthy, pyStr, hap]

/-- Witness for C6 at `allOkEnv` (a successful run). -/
theorem C6_result_exactly_one_shape_witness :
    (processCoupangLink allOkEnv "u").1.error = none ∧
    (processCoupangLink allOkEnv "u").1.product_info.isSome ∧
    (processCoupangLink allOkEnv "u").1.script_data.isSome ∧
    (processCoupangLink allOkEnv "u").1.video_path.isSome ∧
    (processCoupangLink allOkEnv "u").1.upload_results.isSome ∧
    (processCoupangLink allOkEnv "u").1.processing_time = allOkEnv.now :=
  (C6_result_exactly_one_shape allOkEnv "u").1 rfl

/-- C8: publish failures are non-fatal.  For every run that reaches the
publish stage (stages 1-6 succeed) whose upload collaborators return
normally, the pipeline result has `success=true` and the per-target mapping
records each target's outcome — also when one or both uploads fail by
returning `None`. -/
theorem C8_publish_nonfatal (env : PipelineEnv) (url : String)
    (pi : ProductInfo) (sd : ScriptData) (ap vp : String) (d : ℚ)
    (igId ytId : Option String) (hap : ap ≠ "") (hvp : vp ≠ "")
    (hE : env.extractProductInfo url = .ok (some pi))
    (hS : env.generateVideoScript pi = .ok (some sd))
    (hSp : env.generateSpeech sd.script "alloy" = .ok (some ap))
    (hD : env.getAudioDuration ap = .ok d)
    (hSub : env.generateSubtitlesFromScript sd.script d = .ok none)
    (hV : env.generateVideoFromScript sd pi.images = .ok (some vp))
    (hC : pyTruthy (composeFinalVideo env.compose vp ap none).result = true)
    (hIg : ∀ v c h, env.uploadInstagramVideo v c h = .ok igId)
    (hYt : ∀ v t c h, env.uploadYoutubeVideo v t c h = .ok ytId) :
    (processCoupangLink env url).1.success = true ∧
    (processCoupangLink env url).1.upload_results =
      some { instagram := some { success := igId.isSome, platformId := igId }
             youtube := some { success := ytId.isSome, platformId := ytId }
             error := none } := by
  obtain ⟨p, hp, hp'⟩ := (pyTruthy_iff _).mp hC
  simp [processCoupangLink, hE, hS, hSp, hD, hSub, hV, hap, hvp, hp, hp',
    hIg, hYt, uploadToSocialMedia, pyTruthy, pyStr, successResult]

/-- `allOkEnv`, except that both uploads fail by returning `None`. -/
def envUploadsFail : PipelineEnv :=
  { allOkEnv with
      uploadInstagramVideo := fun _ _ _ => .ok none
      uploadYoutubeVideo := fun _ _ _ _ => .ok none }

/-- Witness for C8: both uploads fail, yet the run succeeds and both
failures are recorded in the mapping. -/
theorem C8_publish_nonfatal_witness :
    (processCoupangLink envUploadsFail "u").1.success = true ∧
    (processCoupangLink envUploadsFail "u").1.upload_results =
      some { instagram := some { success := false, platformId := none }
             youtube := some { success := false, platformId := none }
             error := none } :=
  C8_publish_nonfatal envUploadsFail "u" (mockProduct "u") mockScript
    "output/audio/speech_0.mp3" "output/videos/final_video_0.mp4" 28 none none
    (by decide) (by decide) rfl rfl rfl rfl rfl rfl rfl
    (fun _ _ _ => rfl) (fun _ _ _ _ => rfl)

/-- `allOkEnv`, except that the Instagram upload raises an exception. -/
def envInstaRaises : PipelineEnv :=
  { allOkEnv with uploadInstagramVideo := fun _ _ _ => .error "boom" }

/-- `allOkEnv`, except that the Instagram upload fails by returning `None`. -/
def envInstaNone : PipelineEnv :=
  { allOkEnv with uploadInstagramVideo := fun _ _ _ => .ok none }

/-- C4 counterexample: when target A (Instagram) fails with an exception and
target B (YouTube) would succeed, `_upload_to_social_media` does NOT mark A
failed and B successful — the single `try:` block covering both targets
jumps to `except`, so the returned mapping has no entry for either target
(only the aggregate `error` key), and the YouTube upload is never attempted. -/
theorem C4_counterexample :
    uploadToSocialMedia envInstaRaises "v.mp4" mockScript =
      ({ instagram := none, youtube := none, error := some "boom" },
       [Collab.instagram]) := rfl

/-- C4 (amended): the publisher attempts every remaining target when a
target fails by returning null — with target A returning `None` and target
B returning an id, the mapping marks A failed and B successful with its
non-null platform id and no aggregate error.  A target-level exception,
however, short-circuits the remaining targets: it is recorded only under
the aggregate `error` key, the raising target gets no per-target entry, and
later targets are not attempted; entries recorded before the exception are
preserved. -/
theorem C4_publisher_aggregation (env : PipelineEnv) (vp : String) (sd : ScriptData) :
    (∀ ytId, env.uploadInstagramVideo vp sd.description sd.hashtags = .ok none →
      env.uploadYoutubeVideo vp sd.title sd.description sd.hashtags = .ok ytId →
      uploadToSocialMedia env vp sd =
        ({ instagram := some { success := false, platformId := none }
           youtube := some { success := ytId.isSome, platformId := ytId }
           error := none },
         [.instagram, .youtube])) ∧
    (∀ e, env.uploadInstagramVideo vp sd.description sd.hashtags = .error e →
      uploadToSocialMedia env vp sd =
        ({ instagram := none, youtube := none, error := some e },
         [.instagram])) ∧
    (∀ igId e, env.uploadInstagramVideo vp sd.description sd.hashtags = .ok igId →
      env.uploadYoutubeVideo vp sd.title sd.description sd.hashtags = .error e →
      uploadToSocialMedia env vp sd =
        ({ instagram := some { success := igId.isSome, platformId := igId }
           youtube := none, error := some e },
         [.instagram, .youtube])) := by
  refine ⟨?_, ?_, ?_⟩
  · intro ytId hIg hYt
    simp [uploadToSocialMedia, hIg, hYt]
  · intro e hIg
    simp [uploadToSocialMedia, hIg]
  · intro igId e hIg hYt
    simp [uploadToSocialMedia, hIg, hYt]

/-- Witness for C4 (amended): Instagram returns `None`, YouTube succeeds;
both are attempted and recorded. -/
theorem C4_publisher_aggregation_witness :
    uploadToSocialMedia envInstaNone "v.mp4" mockScript =
      ({ instagram := some { success := false, platformId := none }
         youtube := some { success := true, platformId := some "ytAbc123" }
         error := none },
       [Collab.instagram, Collab.youtube]) := by
  simpa using
    (C4_publisher_aggregation envInstaNone "v.mp4" mockScript).1
      (some "ytAbc123") rfl rfl

/-- When the `try:` body of `_compose_final_video` completes, `audio` is
bound in `locals()` exactly when a non-empty audio path was supplied. -/
theorem composeBody_ok_flag (env : ComposeEnv) (vp ap : String) (sp : Option String)
    (p : String) (c : Clip) (b : Bool)
    (hb : composeBody env vp ap sp = .ok (p, c, b)) : b = decide (ap ≠ "") := by
  unfold composeBody at hb
  simp only [bind, Except.bind, pure, Except.pure] at hb
  repeat' split at hb
  all_goals cases hb
  all_goals simp_all

/-- `happyEnv`, except that `write_videofile` raises. -/
def envWriteFails : ComposeEnv :=
  { happyEnv 28 32 with writeVideofile := fun _ _ => .error "write error" }

/-- C5 counterexample: a composition attempt whose write step raises returns
`None` — but the loaded video and audio handles are NOT closed, because the
`close()` calls of `main.py` lines 171-173 sit inside the `try:` body after
the write, not in a `finally:` block, so the failure path skips them. -/
theorem C5_counterexample :
    composeFinalVideo envWriteFails "v.mp4" "a.mp3" none =
      { result := none, finalDuration := none
        videoClosed := false, audioClosed := false } := rfl

/-- C5 (amended): for every composition attempt that fails at any step a
failure (`None`) is returned rather than an exception raised past the stage
boundary (the embedding is total), and no output file is referenced in the
result; however the handles are released only on the success path — when
composition returns a path the video handle is closed and the audio handle
is closed exactly when an audio path was supplied, while on the failure
path neither handle is closed. -/
theorem C5_compositor_release (env : ComposeEnv) (vp ap : String) (sp : Option String) :
    (∀ e, env.loadVideo vp = .error e →
      composeFinalVideo env vp ap sp =
        { result := none, finalDuration := none
          videoClosed := false, audioClosed := false }) ∧
    ((composeFinalVideo env vp ap sp).result.isSome →
      (composeFinalVideo env vp ap sp).videoClosed = true ∧
      (composeFinalVideo env vp ap sp).audioClosed = decide (ap ≠ "")) ∧
    ((composeFinalVideo env vp ap sp).result = none →
      (composeFinalVideo env vp ap sp).videoClosed = false ∧
      (composeFinalVideo env vp ap sp).audioClosed = false ∧
      (composeFinalVideo env vp ap sp).finalDuration = none) := by
  refine ⟨?_, ?_, ?_⟩
  · intro e he
    simp [composeFinalVideo, composeBody, he, bind, Except.bind]
  · cases hb : composeBody env vp ap sp with
    | error e => simp [composeFinalVideo, hb]
    | ok out =>
      rcases out with ⟨p, c, b⟩
      have := composeBody_ok_flag env vp ap sp p c b hb
      simp [composeFinalVideo, hb, this]
  · cases hb : composeBody env vp ap sp with
    | error e => simp [composeFinalVideo, hb]
    | ok out => simp [composeFinalVideo, hb]

/-- Witness for C5 (amended) at `envWriteFails` (load-failure part applied
to an environment whose video load raises). -/
theorem C5_compositor_release_witness :
    composeFinalVideo
        { happyEnv 28 32 with loadVideo := fun _ => .error "corrupt" }
        "v.mp4" "a.mp3" none =
      { result := none, finalDuration := none
        videoClosed := false, audioClosed := false } :=
  (C5_compositor_release
      { happyEnv 28 32 with loadVideo := fun _ => .error "corrupt" }
      "v.mp4" "a.mp3" none).1 "corrupt" rfl

/-- C7: `main.py` never imports `os`, yet line 156 guards the subtitle step
with `subtitle_path and os.path.exists(subtitle_path)`.  When a subtitle
path is supplied, evaluating `os.path.exists` raises `NameError`, which the
compositor's `except` clause converts into a composition failure (`None`) —
the run fails at the compose stage instead of skipping the subtitle.  The
guard's clear intent (skip when the file is absent) matches the claim, so
the code is the slip: with a subtitle path whose backing file is absent the
composition returns `None` (first conjunct), unlike the successful
no-subtitle composition (second conjunct); the failure is the missing
import, not the file check — it occurs even when the file exists (third
conjunct). -/
theorem C7_missing_subtitle_not_skipped :
    composeFinalVideo (happyEnv 28 32) "v.mp4" "a.mp3"
        (some "output/subtitles/sub.srt") =
      { result := none, finalDuration := none
        videoClosed := false, audioClosed := false } ∧
    composeFinalVideo (happyEnv 28 32) "v.mp4" "a.mp3" none =
      { result := some "output/videos/final_0.mp4", finalDuration := some 28
        videoClosed := true, audioClosed := true } ∧
    composeFinalVideo { happyEnv 28 32 with subtitleFileExists := fun _ => true }
        "v.mp4" "a.mp3" (some "output/subtitles/sub.srt") =
      { result := none, finalDuration := none
        videoClosed := false, audioClosed := false } := by
  have h1 : ((28 : ℚ) ≠ 32) := by norm_num
  have h2 : ¬((28 : ℚ) > 32) := by norm_num
  refine ⟨?_, ?_, ?_⟩ <;>
    simp [composeFinalVideo, composeBody, happyEnv, reconcileAudioVideo,
      Clip.subclip, Clip.setAudio, bind, Except.bind, pure, Except.pure,
      mainPyImportsOs, h1, h2, sub_zero] <;> rfl

/-- C1: duration reconciliation during composition yields final duration
`D = min(Da, Dv)` for all `Da, Dv ≥ 0`: if the audio duration exceeds the
video duration the audio is truncated to `[0, Dv]`; if it is less the video
is truncated to `[0, Da]`; if they are equal no trim is applied; media is
never stretched or looped (each output duration is bounded by its input),
and a full composition run writes a file of duration `min(Da, Dv)`. -/
theorem C1_duration_reconciliation (da dv : ℚ) (ha : 0 ≤ da) (hv : 0 ≤ dv) :
    ((reconcileAudioVideo ⟨da, none⟩ ⟨dv, none⟩).1.duration = min da dv ∧
     (reconcileAudioVideo ⟨da, none⟩ ⟨dv, none⟩).2.duration = min da dv) ∧
    (da > dv → reconcileAudioVideo ⟨da, none⟩ ⟨dv, none⟩
        = ((⟨da, none⟩ : Clip).subclip 0 dv, ⟨dv, none⟩)) ∧
    (da < dv → reconcileAudioVideo ⟨da, none⟩ ⟨dv, none⟩
        = (⟨da, none⟩, (⟨dv, none⟩ : Clip).subclip 0 da)) ∧
    (da = dv → reconcileAudioVideo ⟨da, none⟩ ⟨dv, none⟩ = (⟨da, none⟩, ⟨dv, none⟩)) ∧
    ((reconcileAudioVideo ⟨da, none⟩ ⟨dv, none⟩).1.duration ≤ da ∧
     (reconcileAudioVideo ⟨da, none⟩ ⟨dv, none⟩).2.duration ≤ dv) ∧
    (composeFinalVideo (happyEnv da dv) "video.mp4" "audio.mp3" none).finalDuration
        = some (min da dv) := by
  simp only [composeFinalVideo, composeBody, happyEnv, reconcileAudioVideo,
    Clip.subclip, Clip.setAudio, bind, Except.bind, pure, Except.pure]
  refine ⟨⟨?_, ?_⟩, ?_, ?_, ?_, ⟨?_, ?_⟩, ?_⟩ <;> try intro h
  all_goals try simp only [min_def]
  all_goals try split_ifs
  all_goals push_neg at *
  all_goals simp_all
  all_goals try linarith

/-- Witness for C1 at `Da = 2`, `Dv = 3`. -/
theorem C1_duration_reconciliation_witness :
    (composeFinalVideo (happyEnv 2 3) "video.mp4" "audio.mp3" none).finalDuration
        = some (min 2 3) :=
  (C1_duration_reconciliation 2 3 (by norm_num) (by norm_num)).2.2.2.2.2

/-- One status query's outcome, as seen by the polling loops:
`ok200 status payload` is an HTTP 200 response whose JSON carries the given
`status` field and result payload (`video_url` for the video poller);
`notOk` is a non-200 response (for the Instagram poller,
`raise_for_status()` turns this into a raised exception, which behaves the
same way); `exn` is an exception raised while querying. -/
inductive PollReply where
  | ok200 (status : Option String) (payload : Option String)
  | notOk
  | exn
deriving Repr, DecidableEq

/-- The polling loop of `_wait_for_video_completion`
(`modules/video_generator.py` lines 178-207): while the elapsed time is
below `max_wait`, query the task status (the reply to query number `q` is
`replies q`); on status `completed` return the `video_url` payload, on
`failed` return `None`; on any other status, a non-200 response, or a query
exception, sleep 10 seconds and poll again; once the deadline is reached
return `None`.  Queries are instantaneous in the model; time advances only
by the 10-second sleeps.  Returns the result and the number of queries
performed. -/
def waitVideoAux (replies : Nat → PollReply) (maxWait elapsed q : Nat) :
    Option String × Nat :=
  if elapsed < maxWait then
    match replies q with
    | .ok200 st payload =>
      if st = some "completed" then (payload, q + 1)
      else if st = some "failed" then (none, q + 1)
      else waitVideoAux replies maxWait (elapsed + 10) (q + 1)
    | .notOk => waitVideoAux replies maxWait (elapsed + 10) (q + 1)
    | .exn => waitVideoAux replies maxWait (elapsed + 10) (q + 1)
  else (none, q)
termination_by maxWait - elapsed
decreasing_by all_goals omega

/-- `_wait_for_video_completion(task_id, max_wait=300)`: the loop started
with zero elapsed time; the deadline defaults to 300 seconds. -/
def waitForVideoCompletion (replies : Nat → PollReply) (maxWait : Nat := 300) :
    Option String × Nat :=
  waitVideoAux replies maxWait 0 0

/-- The polling loop of `_wait_for_upload_completion`
(`modules/instagram_uploader.py` lines 97-129): same structure, with
`status_code` values `FINISHED` (return `True`) and `ERROR` (return
`False`); any other reply sleeps 10 seconds and polls again; deadline
exhaustion returns `False`. -/
def waitUploadAux (replies : Nat → PollReply) (maxWait elapsed q : Nat) :
    Bool × Nat :=
  if elapsed < maxWait then
    match replies q with
    | .ok200 st _ =>
      if st = some "FINISHED" then (true, q + 1)
      else if st = some "ERROR" then (false, q + 1)
      else waitUploadAux replies maxWait (elapsed + 10) (q + 1)
    | .notOk => waitUploadAux replies maxWait (elapsed + 10) (q + 1)
    | .exn => waitUploadAux replies maxWait (elapsed + 10) (q + 1)
  else (false, q)
termination_by maxWait - elapsed
decreasing_by all_goals omega

/-- `_wait_for_upload_completion(container_id, max_wait=300)`. -/
def waitForUploadCompletion (replies : Nat → PollReply) (maxWait : Nat := 300) :
    Bool × Nat :=
  waitUploadAux replies maxWait 0 0

/-- Status sequence PENDING, PENDING, then `completed` with a payload. -/
def seqPendingPendingDone : Nat → PollReply := fun q =>
  if q = 2 then .ok200 (some "completed") (some "http://cdn/v.mp4")
  else .ok200 (some "PENDING") none

/-- Status sequence PENDING, PENDING, then `FINISHED`. -/
def seqPendingPendingFinished : Nat → PollReply := fun q =>
  if q = 2 then .ok200 (some "FINISHED") none
  else .ok200 (some "PENDING") none

/-- A query exception first, then `completed`. -/
def seqTransientThenDone : Nat → PollReply := fun q =>
  if q = 0 then .exn else .ok200 (some "completed") (some "http://cdn/v.mp4")

/-- If every reply is non-terminal (status neither `completed` nor
`failed`, or a non-200 reply or a query error), the video poller runs to
its deadline and returns `None` without raising. -/
theorem waitVideoAux_nonterminal (replies : Nat → PollReply) (maxWait : Nat)
    (hP : ∀ q st payload, replies q = .ok200 st payload →
      st ≠ some "completed" ∧ st ≠ some "failed") :
    ∀ e q, (waitVideoAux replies maxWait e q).1 = none := by
  have H : ∀ n e q, maxWait - e ≤ n → (waitVideoAux replies maxWait e q).1 = none := by
    intro n
    induction n with
    | zero =>
      intro e q hle
      unfold waitVideoAux
      have he : ¬ e < maxWait := by omega
      simp [he]
    | succ n ih =>
      intro e q hle
      unfold waitVideoAux
      by_cases he : e < maxWait
      · cases hr : replies q with
        | ok200 st payload =>
          obtain ⟨h1, h2⟩ := hP q st payload hr
          simp only [he, if_true, hr, h1, h2, if_false]
          simpa [h1, h2] using ih (e + 10) (q + 1) (by omega)
        | notOk => simpa [he, hr] using ih (e + 10) (q + 1) (by omega)
        | exn => simpa [he, hr] using ih (e + 10) (q + 1) (by omega)
      · simp [he]
  exact fun e q => H (maxWait - e) e q le_rfl

/-- C3: the pollers query at a fixed 10-second interval against a
300-second default deadline.  Given PENDING, PENDING, FINISHED both pollers
return success after exactly 3 queries; a single `failed` / `ERROR` status
returns failure immediately after 1 query; if every reply is non-terminal
the poll returns the timed-out outcome (`None`) without raising — with the
default deadline after exactly 30 queries; and a transient query error does
not terminate polling: it is followed by another query after the normal
interval. -/
theorem C3_poller_behavior :
    waitForVideoCompletion seqPendingPendingDone 300 = (some "http://cdn/v.mp4", 3) ∧
    waitForUploadCompletion seqPendingPendingFinished 300 = (true, 3) ∧
    waitForVideoCompletion (fun _ => .ok200 (some "failed") none) 300 = (none, 1) ∧
    waitForUploadCompletion (fun _ => .ok200 (some "ERROR") none) 300 = (false, 1) ∧
    (∀ replies, (∀ q st payload, replies q = .ok200 st payload →
        st ≠ some "completed" ∧ st ≠ some "failed") →
      (waitForVideoCompletion replies 300).1 = none) ∧
    waitForVideoCompletion (fun _ => .exn) 300 = (none, 30) ∧
    waitForVideoCompletion seqTransientThenDone 300 = (some "http://cdn/v.mp4", 2) := by
  refine ⟨?_, ?_, ?_, ?_, ?_, ?_, ?_⟩
  · simp [waitForVideoCompletion, waitVideoAux, seqPendingPendingDone]
  · simp [waitForUploadCompletion, waitUploadAux, seqPendingPendingFinished]
  · simp [waitForVideoCompletion, waitVideoAux]
  · simp [waitForUploadCompletion, waitUploadAux]
  · intro replies hP
    exact waitVideoAux_nonterminal replies 300 hP 0 0
  · simp [waitForVideoCompletion, waitVideoAux]
  · simp [waitForVideoCompletion, waitVideoAux, seqTransientThenDone]

/-- Witness for C3: the always-PENDING sequence times out to `None`. -/
theorem C3_poller_behavior_witness :
    (waitForVideoCompletion (fun _ => PollReply.ok200 (some "PENDING") none) 300).1
      = none :=
  C3_poller_behavior.2.2.2.2.1 (fun _ => PollReply.ok200 (some "PENDING") none)
    (by intro q st payload h; cases h; decide)

/-- A JSON value, as produced by Python's `json.loads`.  Numbers are
modelled as integers (the inputs this system parses use integer scene
durations; fractional and exponent literals are treated as parse
failures — a documented simplification of the stdlib parser). -/
inductive Json where
  | null
  | bool (b : Bool)
  | num (n : Int)
  | str (s : String)
  | arr (items : List Json)
  | obj (members : List (String × Json))
deriving Repr

/-- JSON string escapes (`\u` sequences are unsupported in the model). -/
def unescapeChar (c : Char) : Option Char :=
  if c = '"' then some '"'
  else if c = '\\' then some '\\'
  else if c = '/' then some '/'
  else if c = 'n' then some '\n'
  else if c = 't' then some '\t'
  else if c = 'r' then some '\r'
  else if c = 'b' then some (Char.ofNat 8)
  else if c = 'f' then some (Char.ofNat 12)
  else none

/-- Parse the remainder of a JSON string literal (after the opening quote),
returning its characters and the rest of the input. -/
def parseStrAux : List Char → Option (List Char × List Char)
  | [] => none
  | c :: rest =>
    if c = '"' then some ([], rest)
    else if c = '\\' then
      match rest with
      | [] => none
      | e :: rest2 =>
        match unescapeChar e, parseStrAux rest2 with
        | some u, some (s, r) => some (u :: s, r)
        | _, _ => none
    else
      match parseStrAux rest with
      | some (s, r) => some (c :: s, r)
      | none => none

/-- JSON whitespace. -/
def isWs (c : Char) : Bool :=
  c = ' ' || c = '\t' || c = '\n' || c = '\r'

/-- Drop leading JSON whitespace. -/
def skipWs (cs : List Char) : List Char :=
  cs.dropWhile isWs

/-- Decimal digits to a natural number. -/
def digitsToNat (ds : List Char) : Nat :=
  ds.foldl (fun a c => a * 10 + (c.toNat - 48)) 0

/-- Parse a non-negative JSON integer literal (fractions and exponents are
rejected). -/
def parseNumPos (cs : List Char) : Option (Int × List Char) :=
  let ds := cs.takeWhile Char.isDigit
  let rest := cs.dropWhile Char.isDigit
  if ds.isEmpty then none
  else
    match rest with
    | c :: _ =>
      if c = '.' || c = 'e' || c = 'E' then none
      else some ((digitsToNat ds : Int), rest)
    | [] => some ((digitsToNat ds : Int), rest)

/-- Parse a JSON integer literal with optional leading minus. -/
def parseNumLit : List Char → Option (Int × List Char)
  | '-' :: rest => (parseNumPos rest).map fun p => (-p.1, p.2)
  | cs => parseNumPos cs

mutual

/-- Fuel-indexed recursive-descent JSON value parsing (model of
`json.loads`'s grammar). -/
def parseVal : Nat → List Char → Option (Json × List Char)
  | 0, _ => none
  | Nat.succ fuel, cs =>
    match skipWs cs with
    | [] => none
    | c :: rest =>
      if c = Char.ofNat 123 then parseObjBody fuel rest
      else if c = Char.ofNat 91 then parseArrBody fuel rest
      else if c = '"' then
        match parseStrAux rest with
        | some (s, r) => some (.str (String.mk s), r)
        | none => none
      else if "null".toList.isPrefixOf (c :: rest) then
        some (.null, (c :: rest).drop 4)
      else if "true".toList.isPrefixOf (c :: rest) then
        some (.bool true, (c :: rest).drop 4)
      else if "false".toList.isPrefixOf (c :: rest) then
        some (.bool false, (c :: rest).drop 5)
      else
        match parseNumLit (c :: rest) with
        | some (n, r) => some (.num n, r)
        | none => none

/-- Object body after the opening brace: `}` for the empty object, or one
or more members. -/
def parseObjBody : Nat → List Char → Option (Json × List Char)
  | 0, _ => none
  | Nat.succ fuel, cs =>
    match skipWs cs with
    | c :: rest =>
      if c = Char.ofNat 125 then some (.obj [], rest)
      else
        match parseMembers fuel (skipWs cs) with
        | some (ms, r) => some (.obj ms, r)
        | none => none
    | [] => none

/-- One or more `"key": value` members, comma-separated, up to the closing
brace. -/
def parseMembers : Nat → List Char → Option (List (String × Json) × List Char)
  | 0, _ => none
  | Nat.succ fuel, cs =>
    match skipWs cs with
    | '"' :: rest =>
      match parseStrAux rest with
      | some (k, afterKey) =>
        match skipWs afterKey with
        | ':' :: afterColon =>
          match parseVal fuel afterColon with
          | some (v, afterVal) =>
            match skipWs afterVal with
            | ',' :: afterComma =>
              match parseMembers fuel afterComma with
              | some (ms, r) => some ((String.mk k, v) :: ms, r)
              | none => none
            | c :: rest2 =>
              if c = Char.ofNat 125 then some ([(String.mk k, v)], rest2)
              else none
            | [] => none
          | none => none
        | _ => none
      | none => none
    | _ => none

/-- Array body after the opening bracket: `]` for the empty array, or one
or more items. -/
def parseArrBody : Nat → List Char → Option (Json × List Char)
  | 0, _ => none
  | Nat.succ fuel, cs =>
    match skipWs cs with
    | c :: rest =>
      if c = Char.ofNat 93 then some (.arr [], rest)
      else
        match parseItems fuel (skipWs cs) with
        | some (its, r) => some (.arr its, r)
        | none => none
    | [] => none

/-- One or more array items, comma-separated, up to the closing bracket. -/
def parseItems : Nat → List Char → Option (List Json × List Char)
  | 0, _ => none
  | Nat.succ fuel, cs =>
    match parseVal fuel cs with
    | some (v, afterVal) =>
      match skipWs afterVal with
      | ',' :: afterComma =>
        match parseItems fuel afterComma with
        | some (its, r) => some (v :: its, r)
        | none => none
      | c :: rest2 =>
        if c = Char.ofNat 93 then some ([v], rest2)
        else none
      | [] => none
    | none => none

end

/-- Model of Python `json.loads`: parse one JSON value and require only
whitespace afterwards; `none` models a raised `JSONDecodeError`. -/
def jsonLoads (s : String) : Option Json :=
  match parseVal (4 * (s.length + 1)) s.toList with
  | some (j, rest) => if (skipWs rest).isEmpty then some j else none
  | none => none

/-- Dictionary key lookup on a JSON object (first match, like a Python dict
built by `json.loads`, whose keys are unique). -/
def Json.getKey : Json → String → Option Json
  | .obj members, k => (members.find? fun kv => kv.1 == k).map fun kv => kv.2
  | _, _ => none

/-- Whether a JSON value is an object containing the given key. -/
def Json.hasKey (j : Json) (k : String) : Bool :=
  (j.getKey k).isSome

/-- The region Python extracts at `modules/gemini_handler.py` lines 79-83:
`response_text[response_text.find('\x7b') : response_text.rfind('\x7d') + 1]`.
`find` failing gives `-1` (no region, go to fallback directly); `rfind`
failing gives `-1`, so `end_idx = 0` — the guard `end_idx != -1` is then
still true and the slice is empty. -/
def extractedJsonText (text : String) : Option String :=
  let cs := text.toList
  match cs.findIdx? fun c => c == Char.ofNat 123 with
  | none => none
  | some s =>
    let e : Nat :=
      match cs.reverse.findIdx? fun c => c == Char.ofNat 125 with
      | some j => cs.length - j
      | none => 0
    some (String.mk ((cs.drop s).take (e - s)))

/-- `_fallback_parse` (`modules/gemini_handler.py` lines 92-102): the fixed
fallback record whose `script` is the first 500 characters of the input and
whose `video_scenes` holds exactly one 30-second scene. -/
def fallbackParse (text : String) : Json :=
  .obj
    [("title", .str "쿠팡 상품 소개"),
     ("description", .str "AI가 생성한 상품 소개 영상입니다."),
     ("script", .str (String.mk (text.toList.take 500))),
     ("hashtags", .arr [.str "쿠팡", .str "상품추천", .str "쇼핑", .str "AI"]),
     ("video_scenes", .arr
       [.obj [("scene", .num 1), ("description", .str "상품 소개"),
              ("duration", .num 30)]])]

/-- `_parse_script_response` (`modules/gemini_handler.py` lines 75-90):
extract the brace-delimited region and `json.loads` it, returning whatever
value parses; on no region or a `JSONDecodeError`, return the fallback. -/
def parseScriptResponse (text : String) : Json :=
  match extractedJsonText text with
  | none => fallbackParse text
  | some jt =>
    match jsonLoads jt with
    | some j => j
    | none => fallbackParse text

/-- C9 counterexample: on input `"\x7b\x7d"` the extracted region parses as
the empty JSON object, which `_parse_script_response` returns as-is — a
dictionary containing none of the keys `title`, `description`, `script`,
`hashtags`, `video_scenes`.  The claim that parsing always yields a record
with those five keys is false. -/
theorem C9_counterexample :
    parseScriptResponse "\x7b\x7d" = Json.obj [] ∧
    (parseScriptResponse "\x7b\x7d").hasKey "title" = false ∧
    (parseScriptResponse "\x7b\x7d").hasKey "script" = false := by
  refine ⟨rfl, rfl, rfl⟩

/-- C9 (amended): `_parse_script_response` is total — for every input it
returns a value (never raises): the successfully parsed JSON region is
returned as-is (which may lack the script keys), and when no region exists
or the region fails to parse, the fixed fallback is returned; the fallback
contains the keys `title`, `description`, `script`, `hashtags` and
`video_scenes`, its `script` field is the first 500 characters of the
input, and its `video_scenes` is exactly one 30-second scene. -/
theorem C9_parse_script_total (text : String) :
    (extractedJsonText text = none → parseScriptResponse text = fallbackParse text) ∧
    (∀ jt, extractedJsonText text = some jt → jsonLoads jt = none →
      parseScriptResponse text = fallbackParse text) ∧
    (∀ jt j, extractedJsonText text = some jt → jsonLoads jt = some j →
      parseScriptResponse text = j) ∧
    ((fallbackParse text).hasKey "title" = true ∧
     (fallbackParse text).hasKey "description" = true ∧
     (fallbackParse text).hasKey "script" = true ∧
     (fallbackParse text).hasKey "hashtags" = true ∧
     (fallbackParse text).hasKey "video_scenes" = true) ∧
    (fallbackParse text).getKey "script" =
      some (.str (String.mk (text.toList.take 500))) ∧
    (fallbackParse text).getKey "video_scenes" =
      some (.arr [.obj [("scene", .num 1), ("description", .str "상품 소개"),
                        ("duration", .num 30)]]) := by
  refine ⟨?_, ?_, ?_, ⟨rfl, rfl, rfl, rfl, rfl⟩, rfl, rfl⟩
  · intro h
    simp [parseScriptResponse, h]
  · intro jt h1 h2
    simp [parseScriptResponse, h1, h2]
  · intro jt j h1 h2
    simp [parseScriptResponse, h1, h2]

/-- Witness for C9 (amended): a brace-free input takes the fallback path. -/
theorem C9_parse_script_total_witness :
    parseScriptResponse "hello" = fallbackParse "hello" :=
  (C9_parse_script_total "hello").1 rfl

/-- The `https?://` prefix of both patterns of `_is_valid_coupang_url`
(`modules/coupang_scraper.py` lines 61-64), matched at the start of the
string as `re.match` does; returns the remainder on success. -/
def stripHttpPrefix (cs : List Char) : Option (List Char) :=
  if "https://".toList.isPrefixOf cs then some (cs.drop 8)
  else if "http://".toList.isPrefixOf cs then some (cs.drop 7)
  else none

/-- Match `https?://.*LIT` (and, when `needDigit`, a following `\d`) at the
start of the string: after the scheme, `.*` spans any characters except a
newline (Python `re` without DOTALL), then the literal, then — for the
product pattern `\d+` — at least one digit.  `re.match` only anchors the
start, so trailing characters are unconstrained. -/
def matchCoupangPattern (lit : List Char) (needDigit : Bool) (cs : List Char) : Bool :=
  match stripHttpPrefix cs with
  | none => false
  | some rest =>
    (List.range (rest.length + 1)).any fun i =>
      !((rest.take i).any fun c => c == '\n') &&
      lit.isPrefixOf (rest.drop i) &&
      (if needDigit then
         match (rest.drop i).drop lit.length with
         | c :: _ => c.isDigit
         | [] => false
       else true)

/-- `_is_valid_coupang_url`: the URL matches the product pattern
`https?://.*coupang\.com/vp/products/\d+` or the search pattern
`https?://.*coupang\.com/np/search`. -/
def isValidCoupangUrl (url : String) : Bool :=
  matchCoupangPattern "coupang.com/vp/products/".toList true url.toList ||
  matchCoupangPattern "coupang.com/np/search".toList false url.toList

/-- The fields `extract_product_info` reads off the fetched page via the
selector helpers (`modules/coupang_scraper.py` lines 67-163); the helpers'
defaults make every field total, so a successfully fetched page always
yields a full record. -/
structure PageFields where
  title : String
  price : String
  original_price : String
  rating : String
  review_count : String
  description : String
  images : List String
deriving Repr, DecidableEq

/-- Outcome of `self.session.get` + `raise_for_status` + soup parsing:
either a parsed page or a raised exception (network error, HTTP error
status, parser error). -/
inductive FetchOutcome where
  | ok (page : PageFields)
  | raised
deriving Repr

/-- `extract_product_info` (`modules/coupang_scraper.py` lines 27-57): one
`try:` block — an invalid URL raises `ValueError`, a fetch problem raises,
and the `except Exception` clause converts any of these into a `None`
return; otherwise the product record is built from the page and the input
URL. -/
def extractProductInfo (fetch : String → FetchOutcome) (url : String) :
    Option ProductInfo :=
  if isValidCoupangUrl url then
    match fetch url with
    | .raised => none
    | .ok page =>
      some { title := page.title, price := page.price
             original_price := page.original_price, rating := page.rating
             review_count := page.review_count, description := page.description
             images := page.images, url := url }
  else
    none

/-- C10: for every URL that matches neither Coupang pattern the scraper
returns `None` rather than raising, and it never raises past its boundary:
a raised fetch/parse error also becomes `None`, and a valid URL with a
fetched page yields the product record (the embedding is total, modelling
the catch-all `except`).  Concretely, a Coupang product URL validates and a
non-Coupang URL does not. -/
theorem C10_scraper_never_raises (fetch : String → FetchOutcome) (url : String) :
    (isValidCoupangUrl url = false → extractProductInfo fetch url = none) ∧
    (fetch url = .raised → extractProductInfo fetch url = none) ∧
    (∀ page, isValidCoupangUrl url = true → fetch url = .ok page →
      extractProductInfo fetch url =
        some { title := page.title, price := page.price
               original_price := page.original_price, rating := page.rating
               review_count := page.review_count, description := page.description
               images := page.images, url := url }) ∧
    isValidCoupangUrl "https://www.coupang.com/vp/products/7234561234" = true ∧
    isValidCoupangUrl "https://www.coupang.com/np/search?q=milk" = true ∧
    isValidCoupangUrl "https://example.com/vp/products/1" = false ∧
    isValidCoupangUrl "not a url" = false ∧
    isValidCoupangUrl "https://www.coupang.com/vp/products/" = false := by
  refine ⟨?_, ?_, ?_, by decide, by decide, by decide, by decide, by decide⟩
  · intro h
    simp [extractProductInfo, h]
  · intro h
    cases hv : isValidCoupangUrl url <;> simp [extractProductInfo, h, hv]
  · intro page h1 h2
    simp [extractProductInfo, h1, h2]

/-- Witness for C10 at a non-Coupang URL. -/
theorem C10_scraper_never_raises_witness :
    extractProductInfo (fun _ => FetchOutcome.raised) "https://example.com/vp/products/1"
      = none :=
  (C10_scraper_never_raises (fun _ => FetchOutcome.raised)
      "https://example.com/vp/products/1").1 (by decide)

end Autoreeler
